import Mathlib

set_option autoImplicit false

/-!
Verification development for the Superette store data scraper
(src/scraper.py).  The Python functions that the specification talks
about — extract_product_data, extract_collection_data, sync_products,
sync_collections, log_scrape and generate_summary — are shallowly
embedded below.  The SQLite tables (products, collections,
products_history, scrape_log) are modelled as explicit lists of rows
that the sync functions thread through, and the wall-clock timestamps
that the Python code obtains from datetime.now are passed in as string
parameters.  Network fetching (fetch_all_products, fetch_all_collections)
and the main entry point perform I/O only and are outside the embedding.
-/

namespace Superette

/-! ## Raw API records

A raw product or collection as decoded from the JSON API.  An `Option`
field models a key that may be missing from the JSON object (a JSON
null value is not distinguished from a missing key here; no tracked
field depends on that distinction). -/

structure Variant where
  price : Option String
  compare_at_price : Option String
  available : Option Bool
  sku : Option String
  deriving DecidableEq, Repr

structure ImageObj where
  src : Option String
  deriving DecidableEq, Repr

structure RawProduct where
  id : Nat
  handle : String
  title : String
  body_html : Option String
  vendor : Option String
  product_type : Option String
  tags : Option (List String)
  variants : List Variant
  images : List ImageObj
  created_at : Option String
  updated_at : Option String
  deriving DecidableEq, Repr

structure RawCollection where
  id : Nat
  handle : String
  title : String
  description : Option String
  products_count : Option Int
  image : Option ImageObj
  updated_at : Option String
  deriving DecidableEq, Repr

/-! ## Extracted dictionaries -/

/-- The dictionary produced by extract_product_data. -/
structure ProductData where
  id : Nat
  handle : String
  title : String
  body_html : String
  vendor : String
  product_type : String
  tags : String
  price : Option String
  compare_at_price : Option String
  available : Nat
  sku : Option String
  image_url : Option String
  shopify_created_at : Option String
  shopify_updated_at : Option String
  deriving DecidableEq, Repr

/-- The dictionary produced by extract_collection_data. -/
structure CollectionData where
  id : Nat
  handle : String
  title : String
  description : String
  products_count : Int
  image_url : Option String
  shopify_updated_at : Option String
  deriving DecidableEq, Repr

/-- Models json.dumps on a list of strings (escape sequences inside the
strings are not modelled; the tags field is stored opaquely and never
compared field-by-field). -/
def jsonDumps (xs : List String) : String :=
  "[" ++ String.intercalate ", " (xs.map (fun s => "\"" ++ s ++ "\"")) ++ "]"

/-- Translation of extract_product_data: the first variant (or an empty
dict when the variants list is missing or empty) supplies price,
compare_at_price, available and sku; the first image supplies image_url.
The Python expression `1 if variant.get("available") else 0` yields 1
exactly when the first variant exists and its available field is true. -/
def extract_product_data (p : RawProduct) : ProductData :=
  let variant := p.variants.head?
  let image := p.images.head?
  { id := p.id
    handle := p.handle
    title := p.title
    body_html := p.body_html.getD ""
    vendor := p.vendor.getD ""
    product_type := p.product_type.getD ""
    tags := jsonDumps (p.tags.getD [])
    price := variant.bind Variant.price
    compare_at_price := variant.bind Variant.compare_at_price
    available := if (variant.bind Variant.available).getD false then 1 else 0
    sku := variant.bind Variant.sku
    image_url := image.bind ImageObj.src
    shopify_created_at := p.created_at
    shopify_updated_at := p.updated_at }

/-- Translation of extract_collection_data. -/
def extract_collection_data (c : RawCollection) : CollectionData :=
  { id := c.id
    handle := c.handle
    title := c.title
    description := c.description.getD ""
    products_count := c.products_count.getD 0
    image_url := c.image.bind ImageObj.src
    shopify_updated_at := c.updated_at }

/-! ## Database rows -/

/-- A row of the products table. -/
structure ProductRow where
  id : Nat
  handle : String
  title : String
  body_html : String
  vendor : String
  product_type : String
  tags : String
  price : Option String
  compare_at_price : Option String
  available : Nat
  sku : Option String
  image_url : Option String
  shopify_created_at : Option String
  shopify_updated_at : Option String
  first_seen_at : String
  last_seen_at : String
  is_active : Nat
  deriving DecidableEq, Repr

/-- A row of the products_history table. -/
structure ProductHistoryEntry where
  product_id : Nat
  field_name : String
  old_value : Option String
  new_value : Option String
  changed_at : String
  deriving DecidableEq, Repr

/-- A row of the collections table. -/
structure CollectionRow where
  id : Nat
  handle : String
  title : String
  description : String
  products_count : Int
  image_url : Option String
  shopify_updated_at : Option String
  first_seen_at : String
  last_seen_at : String
  is_active : Nat
  deriving DecidableEq, Repr

/-! ## Change record entries -/

structure AddedProduct where
  id : Nat
  title : String
  vendor : String
  price : Option String
  deriving DecidableEq, Repr

structure RemovedProduct where
  id : Nat
  title : String
  vendor : String
  deriving DecidableEq, Repr

structure FieldChange where
  field : String
  old : Option String
  new : Option String
  deriving DecidableEq, Repr

structure UpdatedProduct where
  id : Nat
  title : String
  changes : List FieldChange
  deriving DecidableEq, Repr

/-- The dictionary returned by sync_products. -/
structure ProductChanges where
  added : List AddedProduct
  removed : List RemovedProduct
  updated : List UpdatedProduct
  deriving DecidableEq, Repr

structure AddedCollection where
  id : Nat
  title : String
  deriving DecidableEq, Repr

structure RemovedCollection where
  id : Nat
  title : String
  deriving DecidableEq, Repr

structure CountChange where
  id : Nat
  title : String
  old_count : Int
  new_count : Int
  change : Int
  deriving DecidableEq, Repr

/-- The dictionary returned by sync_collections. -/
structure CollectionChanges where
  added : List AddedCollection
  removed : List RemovedCollection
  product_count_changes : List CountChange
  deriving DecidableEq, Repr

/-! ## sync_products -/

/-- SELECT * FROM products WHERE id = pid (the primary key makes ids
unique in reachable states; on a hypothetical duplicate the first row
is returned, mirroring fetchone). -/
def findRow (db : List ProductRow) (pid : Nat) : Option ProductRow :=
  db.find? (fun r => r.id == pid)

/-- The row INSERTed for a new product. -/
def insertedRow (d : ProductData) (now : String) : ProductRow :=
  { id := d.id, handle := d.handle, title := d.title, body_html := d.body_html,
    vendor := d.vendor, product_type := d.product_type, tags := d.tags,
    price := d.price, compare_at_price := d.compare_at_price,
    available := d.available, sku := d.sku, image_url := d.image_url,
    shopify_created_at := d.shopify_created_at,
    shopify_updated_at := d.shopify_updated_at,
    first_seen_at := now, last_seen_at := now, is_active := 1 }

/-- The row resulting from the UPDATE in the existing-product branch:
every extracted field overwrites the stored one, last_seen_at is set to
now, is_active is set back to 1, and first_seen_at is kept. -/
def updatedRow (d : ProductData) (r : ProductRow) (now : String) : ProductRow :=
  { r with
    handle := d.handle, title := d.title, body_html := d.body_html,
    vendor := d.vendor, product_type := d.product_type, tags := d.tags,
    price := d.price, compare_at_price := d.compare_at_price,
    available := d.available, sku := d.sku, image_url := d.image_url,
    shopify_created_at := d.shopify_created_at,
    shopify_updated_at := d.shopify_updated_at,
    last_seen_at := now, is_active := 1 }

/-- The (field, old_val, new_val) triples inspected by the change loop,
after the str() coercion the Python code applies to non-None values:
title, vendor and product_type are NOT NULL strings, available is a 0/1
integer rendered by str, and price, compare_at_price and sku keep their
optional string values unchanged. -/
def productFieldPairs (r : ProductRow) (d : ProductData) :
    List (String × Option String × Option String) :=
  [("title", some r.title, some d.title),
   ("price", r.price, d.price),
   ("available", some (toString r.available), some (toString d.available)),
   ("vendor", some r.vendor, some d.vendor),
   ("product_type", some r.product_type, some d.product_type),
   ("compare_at_price", r.compare_at_price, d.compare_at_price),
   ("sku", r.sku, d.sku)]

/-- The changes list accumulated by the loop over fields_to_check. -/
def productFieldChanges (r : ProductRow) (d : ProductData) :
    List (String × Option String × Option String) :=
  (productFieldPairs r d).filter (fun c => c.2.1 != c.2.2)

/-- Loop state of the first pass of sync_products. -/
structure PSyncState where
  db : List ProductRow
  history : List ProductHistoryEntry
  newIds : List Nat
  added : List AddedProduct
  updated : List UpdatedProduct
  deriving Repr

/-- new_ids.add: a Python set, modelled as a duplicate-free list. -/
def addIdOnce (ids : List Nat) (i : Nat) : List Nat :=
  if ids.contains i then ids else ids ++ [i]

/-- UPDATE products SET ... WHERE id = pid. -/
def updateRowById (db : List ProductRow) (pid : Nat) (r' : ProductRow) :
    List ProductRow :=
  db.map (fun r => if r.id == pid then r' else r)

/-- One iteration of the main loop of sync_products. -/
def syncProductStep (now : String) (st : PSyncState) (raw : RawProduct) :
    PSyncState :=
  let d := extract_product_data raw
  let pid := d.id
  let st1 : PSyncState := { st with newIds := addIdOnce st.newIds pid }
  match findRow st1.db pid with
  | none =>
      { st1 with
        db := st1.db ++ [insertedRow d now]
        added := st1.added ++
          [{ id := pid, title := d.title, vendor := d.vendor, price := d.price }] }
  | some existing =>
      let cs := productFieldChanges existing d
      { st1 with
        db := updateRowById st1.db pid (updatedRow d existing now)
        history := st1.history ++ cs.map (fun c =>
          { product_id := pid, field_name := c.1, old_value := c.2.1,
            new_value := c.2.2, changed_at := now })
        updated :=
          if cs.isEmpty then st1.updated
          else st1.updated ++
            [{ id := pid, title := d.title,
               changes := cs.map (fun c =>
                 { field := c.1, old := c.2.1, new := c.2.2 }) }] }

/-- Loop state of the removal pass of sync_products. -/
structure PRemovalState where
  db : List ProductRow
  history : List ProductHistoryEntry
  removed : List RemovedProduct
  deriving Repr

/-- One iteration of the removed-products loop.  The none branch of the
lookup is unreachable (the first pass never deletes rows, so every
removed id still indexes a stored row); the source indexes the fetched
row unconditionally. -/
def removeProductStep (now : String) (st : PRemovalState) (pid : Nat) :
    PRemovalState :=
  let entry : RemovedProduct :=
    match findRow st.db pid with
    | some r => { id := pid, title := r.title, vendor := r.vendor }
    | none => { id := pid, title := "", vendor := "" }
  { db := st.db.map (fun r =>
      if r.id == pid then { r with is_active := 0, last_seen_at := now } else r)
    history := st.history ++
      [{ product_id := pid, field_name := "is_active", old_value := some "1",
         new_value := some "0", changed_at := now }]
    removed := st.removed ++ [entry] }

/-- SELECT id FROM products WHERE is_active = 1. -/
def activeIds (db : List ProductRow) : List Nat :=
  (db.filter (fun r => r.is_active == 1)).map ProductRow.id

/-- Translation of sync_products: db0 and hist0 are the products and
products_history tables on entry, now is the single timestamp taken at
the top of the function, raws is the fetched product list.  Returns the
two tables on exit together with the change record. -/
def sync_products (db0 : List ProductRow) (hist0 : List ProductHistoryEntry)
    (now : String) (raws : List RawProduct) :
    (List ProductRow × List ProductHistoryEntry) × ProductChanges :=
  let existingIds := activeIds db0
  let st := raws.foldl (syncProductStep now) ⟨db0, hist0, [], [], []⟩
  let removedIds := existingIds.filter (fun i => !(st.newIds.contains i))
  let fin := removedIds.foldl (removeProductStep now) ⟨st.db, st.history, []⟩
  ((fin.db, fin.history),
   { added := st.added, removed := fin.removed, updated := st.updated })

/-! ## sync_collections -/

/-- SELECT * FROM collections WHERE id = cid. -/
def findCollectionRow (db : List CollectionRow) (cid : Nat) :
    Option CollectionRow :=
  db.find? (fun r => r.id == cid)

/-- The row INSERTed for a new collection. -/
def insertedCollectionRow (d : CollectionData) (now : String) : CollectionRow :=
  { id := d.id, handle := d.handle, title := d.title,
    description := d.description, products_count := d.products_count,
    image_url := d.image_url, shopify_updated_at := d.shopify_updated_at,
    first_seen_at := now, last_seen_at := now, is_active := 1 }

/-- The row resulting from the UPDATE in the existing-collection branch. -/
def updatedCollectionRow (d : CollectionData) (r : CollectionRow) (now : String) :
    CollectionRow :=
  { r with
    handle := d.handle, title := d.title, description := d.description,
    products_count := d.products_count, image_url := d.image_url,
    shopify_updated_at := d.shopify_updated_at,
    last_seen_at := now, is_active := 1 }

/-- Loop state of the first pass of sync_collections. -/
structure CSyncState where
  db : List CollectionRow
  newIds : List Nat
  added : List AddedCollection
  product_count_changes : List CountChange
  deriving Repr

/-- One iteration of the main loop of sync_collections: a common id is
checked directly for products_count inequality (no timestamp gate) and
the row is then updated either way. -/
def syncCollectionStep (now : String) (st : CSyncState) (raw : RawCollection) :
    CSyncState :=
  let d := extract_collection_data raw
  let cid := d.id
  let st1 : CSyncState := { st with newIds := addIdOnce st.newIds cid }
  match findCollectionRow st1.db cid with
  | none =>
      { st1 with
        db := st1.db ++ [insertedCollectionRow d now]
        added := st1.added ++ [{ id := cid, title := d.title }] }
  | some existing =>
      { st1 with
        product_count_changes :=
          if existing.products_count == d.products_count then
            st1.product_count_changes
          else st1.product_count_changes ++
            [{ id := cid, title := d.title,
               old_count := existing.products_count,
               new_count := d.products_count,
               change := d.products_count - existing.products_count }]
        db := st1.db.map (fun r =>
          if r.id == cid then updatedCollectionRow d existing now else r) }

/-- Loop state of the removal pass of sync_collections. -/
structure CRemovalState where
  db : List CollectionRow
  removed : List RemovedCollection
  deriving Repr

/-- One iteration of the removed-collections loop; as for products, the
none branch of the lookup is unreachable. -/
def removeCollectionStep (now : String) (st : CRemovalState) (cid : Nat) :
    CRemovalState :=
  let entry : RemovedCollection :=
    match findCollectionRow st.db cid with
    | some r => { id := cid, title := r.title }
    | none => { id := cid, title := "" }
  { db := st.db.map (fun r =>
      if r.id == cid then { r with is_active := 0, last_seen_at := now } else r)
    removed := st.removed ++ [entry] }

/-- SELECT id FROM collections WHERE is_active = 1. -/
def activeCollectionIds (db : List CollectionRow) : List Nat :=
  (db.filter (fun r => r.is_active == 1)).map CollectionRow.id

/-- Translation of sync_collections. -/
def sync_collections (db0 : List CollectionRow) (now : String)
    (raws : List RawCollection) : List CollectionRow × CollectionChanges :=
  let existingIds := activeCollectionIds db0
  let st := raws.foldl (syncCollectionStep now) ⟨db0, [], [], []⟩
  let removedIds := existingIds.filter (fun i => !(st.newIds.contains i))
  let fin := removedIds.foldl (removeCollectionStep now) ⟨st.db, []⟩
  (fin.db,
   { added := st.added, removed := fin.removed,
     product_count_changes := st.product_count_changes })

/-- The ids of all stored product rows, active or not. -/
def productIds (db : List ProductRow) : List Nat :=
  db.map ProductRow.id

/-- The ids of all stored collection rows, active or not. -/
def collectionIds (db : List CollectionRow) : List Nat :=
  db.map CollectionRow.id

/-! ## log_scrape -/

/-- A row of the scrape_log table. -/
structure ScrapeLogEntry where
  scraped_at : String
  products_total : Nat
  products_added : Nat
  products_removed : Nat
  products_updated : Nat
  collections_total : Nat
  collections_added : Nat
  collections_removed : Nat
  summary : String
  deriving DecidableEq, Repr

/-- Translation of log_scrape: a single unconditional INSERT into
scrape_log.  There is no has-changes guard anywhere in the function. -/
def log_scrape (log : List ScrapeLogEntry) (now : String)
    (products_total : Nat) (product_changes : ProductChanges)
    (collections_total : Nat) (collection_changes : CollectionChanges)
    (summary : String) : List ScrapeLogEntry :=
  log ++ [{ scraped_at := now
            products_total := products_total
            products_added := product_changes.added.length
            products_removed := product_changes.removed.length
            products_updated := product_changes.updated.length
            collections_total := collections_total
            collections_added := collection_changes.added.length
            collections_removed := collection_changes.removed.length
            summary := summary }]

/-! ## generate_summary

The report builder.  The Python code renders every value with str
inside f-strings; a None value prints as the four characters None, so
optional strings are rendered through pyStr.  The decorative characters
of the source file are reproduced exactly (the file stores them as
double-encoded UTF-8; the escapes below spell those exact code points).
The generation timestamp that the source takes from datetime.now is the
parameter ts. -/

/-- Python str applied to an optional string: None prints as None. -/
def pyStr (s : Option String) : String :=
  match s with
  | some v => v
  | none => "None"

/-- The 60-character separator line. -/
def sepLine : String := String.mk (List.replicate 60 (Char.ofNat 61))

/-- One itemized line of the NEW PRODUCTS block. -/
def addedProductLine (p : AddedProduct) : String :=
  "      \u00E2\u20AC\u00A2 " ++ p.title ++ " (\u00C2\u00A3" ++ pyStr p.price
    ++ ") - " ++ p.vendor

/-- One itemized line of the REMOVED PRODUCTS block. -/
def removedProductLine (p : RemovedProduct) : String :=
  "      \u00E2\u20AC\u00A2 " ++ p.title ++ " - " ++ p.vendor

/-- The rendering of one field-level change inside an update line. -/
def fieldChangeStr (c : FieldChange) : String :=
  c.field ++ ": " ++ pyStr c.old ++ " \u00E2\u2020\u2019 " ++ pyStr c.new

/-- One itemized line of the UPDATED PRODUCTS block: only the first two
field-level changes are shown, comma-joined. -/
def updatedProductLine (p : UpdatedProduct) : String :=
  "      \u00E2\u20AC\u00A2 " ++ p.title ++ ": "
    ++ String.intercalate ", " ((p.changes.take 2).map fieldChangeStr)

/-- One itemized line of the COLLECTION CHANGES block. -/
def countChangeLine (c : CountChange) : String :=
  "      \u00E2\u20AC\u00A2 " ++ c.title ++ ": " ++ toString c.old_count
    ++ " \u00E2\u2020\u2019 " ++ toString c.new_count ++ " ("
    ++ (if c.change > 0 then "+" ++ toString c.change else toString c.change)
    ++ ")"

/-- The fixed header block of the summary (the initial lines list of the
source); ts is the formatted generation timestamp. -/
def headerLines (product_changes : ProductChanges)
    (products_count collections_count : Nat) (ts : String) : List String :=
  [sepLine,
   "SUPERETTE DATA SCRAPE - " ++ ts,
   sepLine,
   "",
   "\u00F0\u0178\u201C\u00A6 Total Products: " ++ toString products_count,
   "\u00F0\u0178\u201C Total Collections: " ++ toString collections_count,
   "",
   "\u00F0\u0178\u201C\u0160 CHANGES:",
   "   \u00E2\u017E\u2022 New products: "
     ++ toString product_changes.added.length,
   "   \u00E2\u017E\u2013 Removed products: "
     ++ toString product_changes.removed.length,
   "   \u00F0\u0178\u201D\u201E Updated products: "
     ++ toString product_changes.updated.length]

/-- The NEW PRODUCTS block: emitted only when the bucket is non-empty,
itemizing the first 10 entries, with a more-trailer when more than 10. -/
def addedSection (product_changes : ProductChanges) : List String :=
  if product_changes.added.isEmpty then []
  else
    ["", "   NEW PRODUCTS:"]
      ++ (product_changes.added.take 10).map addedProductLine
      ++ (if 10 < product_changes.added.length then
            ["      ... and " ++ toString (product_changes.added.length - 10)
              ++ " more"]
          else [])

/-- The REMOVED PRODUCTS block. -/
def removedSection (product_changes : ProductChanges) : List String :=
  if product_changes.removed.isEmpty then []
  else
    ["", "   REMOVED PRODUCTS:"]
      ++ (product_changes.removed.take 10).map removedProductLine
      ++ (if 10 < product_changes.removed.length then
            ["      ... and " ++ toString (product_changes.removed.length - 10)
              ++ " more"]
          else [])

/-- The UPDATED PRODUCTS block. -/
def updatedSection (product_changes : ProductChanges) : List String :=
  if product_changes.updated.isEmpty then []
  else
    ["", "   UPDATED PRODUCTS:"]
      ++ (product_changes.updated.take 10).map updatedProductLine
      ++ (if 10 < product_changes.updated.length then
            ["      ... and " ++ toString (product_changes.updated.length - 10)
              ++ " more"]
          else [])

/-- The COLLECTION CHANGES block: the source iterates over the whole
product_count_changes list with no slice and appends no trailer. -/
def collectionSection (collection_changes : CollectionChanges) : List String :=
  if collection_changes.product_count_changes.isEmpty then []
  else
    ["", "   COLLECTION CHANGES:"]
      ++ collection_changes.product_count_changes.map countChangeLine

/-- The full lines list built by generate_summary. -/
def summaryLines (product_changes : ProductChanges)
    (collection_changes : CollectionChanges)
    (products_count collections_count : Nat) (ts : String) : List String :=
  headerLines product_changes products_count collections_count ts
    ++ addedSection product_changes
    ++ removedSection product_changes
    ++ updatedSection product_changes
    ++ collectionSection collection_changes
    ++ ["", sepLine]

/-- Translation of generate_summary: the lines list joined with
newlines. -/
def generate_summary (product_changes : ProductChanges)
    (collection_changes : CollectionChanges)
    (products_count collections_count : Nat) (ts : String) : String :=
  String.intercalate "\n"
    (summaryLines product_changes collection_changes products_count
      collections_count ts)

/-! ## Concrete fixtures used by the concrete test cases -/

/-- A concrete raw product with one variant, parameterized by id, title
and source timestamp. -/
def exRawProduct (i : Nat) (t : String) (upd : String) : RawProduct :=
  { id := i, handle := "handle1", title := t, body_html := some "body",
    vendor := some "VendorA", product_type := some "TypeA", tags := some [],
    variants := [{ price := some "5.00", compare_at_price := none,
                   available := some true, sku := some "SKU1" }],
    images := [], created_at := some "c0", updated_at := some upd }

/-- The product row that storing exRawProduct i t upd at timestamp s
produces, with the given activity flag. -/
def exRow (i : Nat) (t : String) (upd : String) (s : String) (act : Nat) :
    ProductRow :=
  { id := i, handle := "handle1", title := t, body_html := "body",
    vendor := "VendorA", product_type := "TypeA", tags := "[]",
    price := some "5.00", compare_at_price := none, available := 1,
    sku := some "SKU1", image_url := none, shopify_created_at := some "c0",
    shopify_updated_at := some upd, first_seen_at := s, last_seen_at := s,
    is_active := act }

/-- A concrete raw product with no variants and no images. -/
def exEmptyProduct : RawProduct :=
  { id := 9, handle := "handle9", title := "Bare", body_html := none,
    vendor := none, product_type := none, tags := none,
    variants := [], images := [], created_at := none, updated_at := none }

/-- A concrete raw collection with the given id, title and count. -/
def exRawCollection (i : Nat) (t : String) (n : Int) : RawCollection :=
  { id := i, handle := "chandle", title := t, description := some "d",
    products_count := some n, image := none, updated_at := some "cu" }

/-- The collection row stored for exRawCollection. -/
def exCollectionRow (i : Nat) (t : String) (n : Int) (act : Nat) :
    CollectionRow :=
  { id := i, handle := "chandle", title := t, description := "d",
    products_count := n, image_url := none, shopify_updated_at := some "cu",
    first_seen_at := "s0", last_seen_at := "s0", is_active := act }

/-- The k-th of a family of distinct collection count changes. -/
def exCountChange (k : Nat) : CountChange :=
  { id := k, title := "coll" ++ toString k, old_count := 1, new_count := 2,
    change := 1 }

/-- A collection change record holding eleven count changes. -/
def ccEleven : CollectionChanges :=
  { added := [], removed := [],
    product_count_changes := (List.range 11).map exCountChange }

/-! ## Helper lemmas about the product sync loop -/

lemma extract_product_data_id (p : RawProduct) :
    (extract_product_data p).id = p.id := rfl

lemma mem_addIdOnce {ids : List Nat} {i j : Nat} :
    i ∈ addIdOnce ids j ↔ i ∈ ids ∨ i = j := by
  unfold addIdOnce
  by_cases h : j ∈ ids
  · rw [if_pos (List.elem_iff.mpr h)]
    exact ⟨Or.inl, fun hh => hh.elim id (fun he => he ▸ h)⟩
  · rw [if_neg (fun hc => h (List.elem_iff.mp hc))]
    simp

lemma findRow_eq_none_iff {db : List ProductRow} {pid : Nat} :
    findRow db pid = none ↔ pid ∉ productIds db := by
  simp [findRow, List.find?_eq_none, productIds, beq_iff_eq]

lemma findRow_id {db : List ProductRow} {pid : Nat} {r : ProductRow}
    (h : findRow db pid = some r) : r.id = pid := by
  have := List.find?_some h
  simpa [beq_iff_eq] using this

lemma findRow_mem {db : List ProductRow} {pid : Nat} {r : ProductRow}
    (h : findRow db pid = some r) : pid ∈ productIds db := by
  have hm := List.mem_of_find?_eq_some h
  have hid := findRow_id h
  unfold productIds
  rw [← hid]
  exact List.mem_map_of_mem _ hm

lemma findRow_map_pres {db : List ProductRow} {pid : Nat}
    {g : ProductRow → ProductRow} (hg : ∀ r, (g r).id = r.id) :
    findRow (db.map g) pid = (findRow db pid).map g := by
  induction db with
  | nil => rfl
  | cons a l ih =>
    by_cases ha : a.id = pid
    · have h1 : ((g a).id == pid) = true := beq_iff_eq.mpr ((hg a).trans ha)
      have h2 : (a.id == pid) = true := beq_iff_eq.mpr ha
      simp [findRow, h1, h2]
    · have h1 : ((g a).id == pid) = false := by
        simp [hg a, ha]
      have h2 : (a.id == pid) = false := by simp [ha]
      simpa [findRow, h1, h2] using ih

lemma updateRowById_eq_map {db : List ProductRow} {q : Nat} {r' : ProductRow} :
    updateRowById db q r' = db.map (fun r => if r.id == q then r' else r) := rfl

lemma findRow_updateRowById_self {db : List ProductRow} {q : Nat}
    {r' r : ProductRow} (hq : r'.id = q) (h : findRow db q = some r) :
    findRow (updateRowById db q r') q = some r' := by
  have hg : ∀ s : ProductRow, ((fun r => if r.id == q then r' else r) s).id = s.id := by
    intro s
    by_cases hs : s.id = q <;> simp [hs, hq]
  rw [updateRowById_eq_map, findRow_map_pres hg, h]
  have hr : r.id = q := findRow_id h
  simp [hr]

lemma findRow_updateRowById_ne {db : List ProductRow} {q pid : Nat}
    {r' : ProductRow} (hq : r'.id = q) (hne : pid ≠ q) :
    findRow (updateRowById db q r') pid = findRow db pid := by
  have hg : ∀ s : ProductRow, ((fun r => if r.id == q then r' else r) s).id = s.id := by
    intro s
    by_cases hs : s.id = q <;> simp [hs, hq]
  rw [updateRowById_eq_map, findRow_map_pres hg]
  cases h : findRow db pid with
  | none => rfl
  | some r =>
      have hr : r.id = pid := findRow_id h
      have : (r.id == q) = false := by simp [hr, hne]
      simp only [Option.map_some', this]
      simp

lemma productIds_updateRowById {db : List ProductRow} {q : Nat}
    {r' : ProductRow} (hq : r'.id = q) :
    productIds (updateRowById db q r') = productIds db := by
  unfold productIds updateRowById
  rw [List.map_map]
  apply List.map_congr_left
  intro r _
  by_cases h : r.id = q <;> simp [Function.comp, h, hq]

lemma productIds_append_one {db : List ProductRow} {row : ProductRow} :
    productIds (db ++ [row]) = productIds db ++ [row.id] := by
  simp [productIds]

lemma updatedRow_id {d : ProductData} {r : ProductRow} {now : String} :
    (updatedRow d r now).id = r.id := rfl

lemma insertedRow_id {d : ProductData} {now : String} :
    (insertedRow d now).id = d.id := rfl

lemma findRow_append_one_ne {db : List ProductRow} {row : ProductRow}
    {pid : Nat} (hne : row.id ≠ pid) :
    findRow (db ++ [row]) pid = findRow db pid := by
  unfold findRow
  rw [List.find?_append]
  cases h : List.find? (fun r => r.id == pid) db with
  | some r => rfl
  | none =>
      have : (row.id == pid) = false := by simp [hne]
      simp [List.find?, this]

/-- Characterization of one loop iteration when the product id is
already stored. -/
lemma syncProductStep_found {now : String} {st : PSyncState} {raw : RawProduct}
    {r : ProductRow} (h : findRow st.db raw.id = some r) :
    syncProductStep now st raw =
      { db := updateRowById st.db raw.id
          (updatedRow (extract_product_data raw) r now)
        history := st.history ++
          (productFieldChanges r (extract_product_data raw)).map (fun c =>
            { product_id := raw.id, field_name := c.1, old_value := c.2.1,
              new_value := c.2.2, changed_at := now })
        newIds := addIdOnce st.newIds raw.id
        added := st.added
        updated :=
          if (productFieldChanges r (extract_product_data raw)).isEmpty then
            st.updated
          else st.updated ++
            [{ id := raw.id, title := (extract_product_data raw).title,
               changes := (productFieldChanges r (extract_product_data raw)).map
                 (fun c => { field := c.1, old := c.2.1, new := c.2.2 }) }] } := by
  have h' : findRow st.db (extract_product_data raw).id = some r := h
  unfold syncProductStep
  simp only [h']
  rfl

/-- Characterization of one loop iteration when the product id is new. -/
lemma syncProductStep_notfound {now : String} {st : PSyncState}
    {raw : RawProduct} (h : findRow st.db raw.id = none) :
    syncProductStep now st raw =
      { db := st.db ++ [insertedRow (extract_product_data raw) now]
        history := st.history
        newIds := addIdOnce st.newIds raw.id
        added := st.added ++
          [{ id := raw.id, title := (extract_product_data raw).title,
             vendor := (extract_product_data raw).vendor,
             price := (extract_product_data raw).price }]
        updated := st.updated } := by
  have h' : findRow st.db (extract_product_data raw).id = none := h
  unfold syncProductStep
  simp only [h']
  rfl

lemma step_newIds_mem {now : String} {st : PSyncState} {raw : RawProduct}
    {i : Nat} :
    i ∈ (syncProductStep now st raw).newIds ↔ i ∈ st.newIds ∨ i = raw.id := by
  cases h : findRow st.db raw.id with
  | none => rw [syncProductStep_notfound h]; exact mem_addIdOnce
  | some r => rw [syncProductStep_found h]; exact mem_addIdOnce

lemma step_db_mem {now : String} {st : PSyncState} {raw : RawProduct}
    {i : Nat} :
    i ∈ productIds (syncProductStep now st raw).db ↔
      i ∈ productIds st.db ∨ i = raw.id := by
  cases h : findRow st.db raw.id with
  | none =>
      rw [syncProductStep_notfound h]
      show i ∈ productIds (st.db ++ [insertedRow (extract_product_data raw) now]) ↔ _
      rw [productIds_append_one]
      simp [insertedRow_id, extract_product_data_id]
  | some r =>
      rw [syncProductStep_found h]
      show i ∈ productIds (updateRowById st.db raw.id
        (updatedRow (extract_product_data raw) r now)) ↔ _
      have hq : (updatedRow (extract_product_data raw) r now).id = raw.id :=
        updatedRow_id.trans (findRow_id h)
      rw [productIds_updateRowById hq]
      have hmem := findRow_mem h
      constructor
      · exact Or.inl
      · rintro (hh | rfl)
        · exact hh
        · exact hmem

lemma step_added_mem {now : String} {st : PSyncState} {raw : RawProduct}
    {i : Nat} :
    i ∈ (syncProductStep now st raw).added.map AddedProduct.id ↔
      i ∈ st.added.map AddedProduct.id ∨
        (i = raw.id ∧ i ∉ productIds st.db) := by
  cases h : findRow st.db raw.id with
  | none =>
      rw [syncProductStep_notfound h]
      have hni : raw.id ∉ productIds st.db := findRow_eq_none_iff.mp h
      simp only [List.map_append, List.mem_append]
      constructor
      · rintro (hh | hh)
        · exact Or.inl hh
        · right
          simp only [List.map_cons, List.map_nil, List.mem_singleton] at hh
          exact ⟨hh, hh ▸ hni⟩
      · rintro (hh | ⟨rfl, _⟩)
        · exact Or.inl hh
        · right; simp
  | some r =>
      rw [syncProductStep_found h]
      have hmem := findRow_mem h
      constructor
      · exact Or.inl
      · rintro (hh | ⟨rfl, hni⟩)
        · exact hh
        · exact absurd hmem hni

lemma step_findRow_ne {now : String} {st : PSyncState} {raw : RawProduct}
    {pid : Nat} (hne : raw.id ≠ pid) :
    findRow (syncProductStep now st raw).db pid = findRow st.db pid := by
  cases h : findRow st.db raw.id with
  | none =>
      rw [syncProductStep_notfound h]
      exact findRow_append_one_ne (by rw [insertedRow_id, extract_product_data_id]; exact hne)
  | some r =>
      rw [syncProductStep_found h]
      exact findRow_updateRowById_ne (updatedRow_id.trans (findRow_id h)) (Ne.symm hne)

lemma step_updated_mem_ne {now : String} {st : PSyncState} {raw : RawProduct}
    {pid : Nat} (hne : raw.id ≠ pid) :
    (pid ∈ (syncProductStep now st raw).updated.map UpdatedProduct.id ↔
      pid ∈ st.updated.map UpdatedProduct.id) := by
  cases h : findRow st.db raw.id with
  | none => rw [syncProductStep_notfound h]
  | some r =>
      rw [syncProductStep_found h]
      by_cases hcs : productFieldChanges r (extract_product_data raw) = []
      · simp [hcs]
      · have hb : (productFieldChanges r (extract_product_data raw)).isEmpty = false := by
          simpa [List.isEmpty_iff] using hcs
        simp [hb, Ne.symm hne]

lemma step_updated_mem_self {now : String} {st : PSyncState} {raw : RawProduct}
    {r : ProductRow} (h : findRow st.db raw.id = some r) :
    (raw.id ∈ (syncProductStep now st raw).updated.map UpdatedProduct.id ↔
      raw.id ∈ st.updated.map UpdatedProduct.id ∨
        productFieldChanges r (extract_product_data raw) ≠ []) := by
  rw [syncProductStep_found h]
  by_cases hcs : productFieldChanges r (extract_product_data raw) = []
  · simp [hcs]
  · have hb : (productFieldChanges r (extract_product_data raw)).isEmpty = false := by
      simpa [List.isEmpty_iff] using hcs
    simp [hb, hcs]

/-- Membership invariants of the main loop of sync_products: the new-id
set collects exactly the fetched ids, the table ids grow by exactly the
fetched ids, and an id lands in added exactly when it is fetched and was
not stored (under any activity flag) when the loop started. -/
lemma foldl_step_mem {now : String} :
    ∀ (raws : List RawProduct) (st : PSyncState) (i : Nat),
      (i ∈ (raws.foldl (syncProductStep now) st).newIds ↔
        i ∈ st.newIds ∨ i ∈ raws.map RawProduct.id)
      ∧ (i ∈ productIds (raws.foldl (syncProductStep now) st).db ↔
        i ∈ productIds st.db ∨ i ∈ raws.map RawProduct.id)
      ∧ (i ∈ (raws.foldl (syncProductStep now) st).added.map AddedProduct.id ↔
        i ∈ st.added.map AddedProduct.id ∨
          (i ∈ raws.map RawProduct.id ∧ i ∉ productIds st.db)) := by
  intro raws
  induction raws with
  | nil => intro st i; simp
  | cons a l ih =>
    intro st i
    simp only [List.foldl_cons, List.map_cons, List.mem_cons]
    obtain ⟨ih1, ih2, ih3⟩ := ih (syncProductStep now st a) i
    refine ⟨?_, ?_, ?_⟩
    · rw [ih1, step_newIds_mem]
      tauto
    · rw [ih2, step_db_mem]
      tauto
    · rw [ih3, step_added_mem, step_db_mem]
      clear ih ih1 ih2 ih3
      generalize (i ∈ st.added.map AddedProduct.id) = A
      generalize (i ∈ productIds st.db) = D
      generalize (i ∈ l.map RawProduct.id) = L
      generalize (i = a.id) = E
      tauto

/-- An id that never occurs in the processed slice keeps its stored row
and its membership in the updated bucket unchanged. -/
lemma foldl_step_skip {now : String} :
    ∀ (raws : List RawProduct) (st : PSyncState) (pid : Nat),
      (∀ x ∈ raws, x.id ≠ pid) →
      findRow (raws.foldl (syncProductStep now) st).db pid = findRow st.db pid
      ∧ (pid ∈ (raws.foldl (syncProductStep now) st).updated.map UpdatedProduct.id ↔
          pid ∈ st.updated.map UpdatedProduct.id) := by
  intro raws
  induction raws with
  | nil => intro st pid _; exact ⟨rfl, Iff.rfl⟩
  | cons a l ih =>
    intro st pid hne
    have ha : a.id ≠ pid := hne a (List.mem_cons_self a l)
    have hl : ∀ x ∈ l, x.id ≠ pid := fun x hx => hne x (List.mem_cons_of_mem a hx)
    obtain ⟨ih1, ih2⟩ := ih (syncProductStep now st a) pid hl
    simp only [List.foldl_cons]
    exact ⟨ih1.trans (step_findRow_ne ha), ih2.trans (step_updated_mem_ne ha)⟩

lemma removeProductStep_removed_ids {now : String} {st : PRemovalState}
    {pid : Nat} :
    (removeProductStep now st pid).removed.map RemovedProduct.id =
      st.removed.map RemovedProduct.id ++ [pid] := by
  unfold removeProductStep
  cases h : findRow st.db pid <;> simp [h]

lemma foldl_remove_removed_ids {now : String} :
    ∀ (ids : List Nat) (st : PRemovalState),
      ((ids.foldl (removeProductStep now) st).removed.map RemovedProduct.id) =
        st.removed.map RemovedProduct.id ++ ids := by
  intro ids
  induction ids with
  | nil => intro st; simp
  | cons a l ih =>
    intro st
    simp only [List.foldl_cons]
    rw [ih, removeProductStep_removed_ids]
    simp

lemma findRow_removeStep_ne {now : String} {st : PRemovalState} {a pid : Nat}
    (hne : pid ≠ a) :
    findRow (removeProductStep now st a).db pid = findRow st.db pid := by
  have hg : ∀ s : ProductRow,
      ((fun r => if r.id == a then
        { r with is_active := 0, last_seen_at := now } else r) s).id = s.id := by
    intro s
    by_cases hs : s.id = a <;> simp [hs]
  show findRow (st.db.map _) pid = _
  rw [findRow_map_pres hg]
  cases h : findRow st.db pid with
  | none => rfl
  | some r =>
      have hr : r.id = pid := findRow_id h
      have : (r.id == a) = false := by simp [hr, hne]
      simp only [Option.map_some', this]
      simp

lemma foldl_remove_findRow {now : String} :
    ∀ (ids : List Nat) (st : PRemovalState) (pid : Nat), pid ∉ ids →
      findRow ((ids.foldl (removeProductStep now) st)).db pid =
        findRow st.db pid := by
  intro ids
  induction ids with
  | nil => intro st pid _; rfl
  | cons a l ih =>
    intro st pid hpid
    have ha : pid ≠ a := fun hh => hpid (hh ▸ List.mem_cons_self a l)
    have hl : pid ∉ l := fun hh => hpid (List.mem_cons_of_mem a hh)
    simp only [List.foldl_cons]
    exact (ih _ pid hl).trans (findRow_removeStep_ne ha)

/-- Behaviour of sync_products at a product id that is already stored
(as some row r, active or not) and occurs exactly once in the fetched
list: the stored row is overwritten in place with the fresh data, the id
joins neither added nor removed, and it joins updated exactly when the
field-comparison loop found a difference. -/
lemma sync_products_common_id
    {db0 : List ProductRow} {hist0 : List ProductHistoryEntry} {now : String}
    {u v : List RawProduct} {raw : RawProduct} {r : ProductRow}
    (hu : ∀ x ∈ u, x.id ≠ raw.id) (hv : ∀ x ∈ v, x.id ≠ raw.id)
    (hr : findRow db0 raw.id = some r) :
    findRow (sync_products db0 hist0 now (u ++ raw :: v)).1.1 raw.id
        = some (updatedRow (extract_product_data raw) r now)
    ∧ raw.id ∉
        (sync_products db0 hist0 now (u ++ raw :: v)).2.added.map AddedProduct.id
    ∧ raw.id ∉
        (sync_products db0 hist0 now (u ++ raw :: v)).2.removed.map RemovedProduct.id
    ∧ (raw.id ∈
        (sync_products db0 hist0 now (u ++ raw :: v)).2.updated.map UpdatedProduct.id
        ↔ productFieldChanges r (extract_product_data raw) ≠ []) := by
  unfold sync_products
  simp only [List.foldl_append, List.foldl_cons]
  set st0 : PSyncState := ⟨db0, hist0, [], [], []⟩ with hst0
  set stu := u.foldl (syncProductStep now) st0 with hstu
  obtain ⟨hskipu_db, hskipu_upd⟩ := foldl_step_skip u st0 raw.id hu
  have hfind_stu : findRow stu.db raw.id = some r := by
    rw [hstu, hskipu_db]; exact hr
  set st1 := syncProductStep now stu raw with hst1
  set stv := v.foldl (syncProductStep now) st1 with hstv
  obtain ⟨hskipv_db, hskipv_upd⟩ := foldl_step_skip v st1 raw.id hv
  have hrow1 : findRow st1.db raw.id =
      some (updatedRow (extract_product_data raw) r now) := by
    rw [hst1, syncProductStep_found hfind_stu]
    exact findRow_updateRowById_self (updatedRow_id.trans (findRow_id hfind_stu))
      hfind_stu
  have hrowv : findRow stv.db raw.id =
      some (updatedRow (extract_product_data raw) r now) := by
    rw [hstv, hskipv_db]; exact hrow1
  -- the fetched id is in the new-id set, hence not in the removed-id list
  have hnew : raw.id ∈ stv.newIds := by
    obtain ⟨h1, _, _⟩ := foldl_step_mem v st1 raw.id
    rw [hstv, h1]
    left
    rw [hst1, step_newIds_mem]
    right; rfl
  have hnotrem : raw.id ∉
      (activeIds db0).filter (fun i => !(stv.newIds.contains i)) := by
    intro hmem
    have hb := (List.mem_filter.mp hmem).2
    have hc : stv.newIds.contains raw.id = true := List.elem_iff.mpr hnew
    rw [hc] at hb
    simp at hb
  refine ⟨?_, ?_, ?_, ?_⟩
  · rw [foldl_remove_findRow _ _ _ hnotrem]
    exact hrowv
  · -- never added: the id was stored when the loop started
    obtain ⟨_, _, h3⟩ := foldl_step_mem v st1 raw.id
    rw [h3]
    rintro (hh | ⟨_, hnodb⟩)
    · rw [hst1, syncProductStep_found hfind_stu] at hh
      obtain ⟨_, _, hu3⟩ := foldl_step_mem u st0 raw.id
      rw [← hstu] at hu3
      rw [hu3] at hh
      rcases hh with hh | ⟨hin, _⟩
      · simp [hst0] at hh
      · exact absurd hin (by
          intro hin
          obtain ⟨x, hx, hxid⟩ := List.mem_map.mp hin
          exact hu x hx hxid)
    · exact hnodb (by
        rw [hst1, step_db_mem]
        right; rfl)
  · rw [foldl_remove_removed_ids]
    simp only [List.map_nil, List.nil_append]
    exact hnotrem
  · rw [hskipv_upd, hst1, step_updated_mem_self hfind_stu, hskipu_upd]
    simp [hst0]

/-! ## Helper lemmas about the collection sync loop -/

lemma extract_collection_data_id (c : RawCollection) :
    (extract_collection_data c).id = c.id := rfl

lemma findCollectionRow_eq_none_iff {db : List CollectionRow} {cid : Nat} :
    findCollectionRow db cid = none ↔ cid ∉ collectionIds db := by
  simp [findCollectionRow, List.find?_eq_none, collectionIds, beq_iff_eq]

lemma findCollectionRow_id {db : List CollectionRow} {cid : Nat}
    {r : CollectionRow} (h : findCollectionRow db cid = some r) : r.id = cid := by
  have := List.find?_some h
  simpa [beq_iff_eq] using this

lemma findCollectionRow_mem {db : List CollectionRow} {cid : Nat}
    {r : CollectionRow} (h : findCollectionRow db cid = some r) :
    cid ∈ collectionIds db := by
  have hm := List.mem_of_find?_eq_some h
  have hid := findCollectionRow_id h
  unfold collectionIds
  rw [← hid]
  exact List.mem_map_of_mem _ hm

lemma findCollectionRow_map_pres {db : List CollectionRow} {cid : Nat}
    {g : CollectionRow → CollectionRow} (hg : ∀ r, (g r).id = r.id) :
    findCollectionRow (db.map g) cid = (findCollectionRow db cid).map g := by
  induction db with
  | nil => rfl
  | cons a l ih =>
    by_cases ha : a.id = cid
    · have h1 : ((g a).id == cid) = true := beq_iff_eq.mpr ((hg a).trans ha)
      have h2 : (a.id == cid) = true := beq_iff_eq.mpr ha
      simp [findCollectionRow, h1, h2]
    · have h1 : ((g a).id == cid) = false := by simp [hg a, ha]
      have h2 : (a.id == cid) = false := by simp [ha]
      simpa [findCollectionRow, h1, h2] using ih

lemma collectionIds_append_one {db : List CollectionRow} {row : CollectionRow} :
    collectionIds (db ++ [row]) = collectionIds db ++ [row.id] := by
  simp [collectionIds]

lemma updatedCollectionRow_id {d : CollectionData} {r : CollectionRow}
    {now : String} : (updatedCollectionRow d r now).id = r.id := rfl

lemma insertedCollectionRow_id {d : CollectionData} {now : String} :
    (insertedCollectionRow d now).id = d.id := rfl

lemma findCollectionRow_append_one_ne {db : List CollectionRow}
    {row : CollectionRow} {cid : Nat} (hne : row.id ≠ cid) :
    findCollectionRow (db ++ [row]) cid = findCollectionRow db cid := by
  unfold findCollectionRow
  rw [List.find?_append]
  cases h : List.find? (fun r => r.id == cid) db with
  | some r => rfl
  | none =>
      have : (row.id == cid) = false := by simp [hne]
      simp [List.find?, this]

/-- Characterization of one collection loop iteration on a stored id. -/
lemma syncCollectionStep_found {now : String} {st : CSyncState}
    {raw : RawCollection} {r : CollectionRow}
    (h : findCollectionRow st.db raw.id = some r) :
    syncCollectionStep now st raw =
      { db := st.db.map (fun x =>
          if x.id == raw.id then
            updatedCollectionRow (extract_collection_data raw) r now
          else x)
        newIds := addIdOnce st.newIds raw.id
        added := st.added
        product_count_changes :=
          if r.products_count == (extract_collection_data raw).products_count then
            st.product_count_changes
          else st.product_count_changes ++
            [{ id := raw.id, title := (extract_collection_data raw).title,
               old_count := r.products_count,
               new_count := (extract_collection_data raw).products_count,
               change := (extract_collection_data raw).products_count -
                 r.products_count }] } := by
  have h' : findCollectionRow st.db (extract_collection_data raw).id = some r := h
  unfold syncCollectionStep
  simp only [h']
  rfl

/-- Characterization of one collection loop iteration on a new id. -/
lemma syncCollectionStep_notfound {now : String} {st : CSyncState}
    {raw : RawCollection} (h : findCollectionRow st.db raw.id = none) :
    syncCollectionStep now st raw =
      { db := st.db ++ [insertedCollectionRow (extract_collection_data raw) now]
        newIds := addIdOnce st.newIds raw.id
        added := st.added ++
          [{ id := raw.id, title := (extract_collection_data raw).title }]
        product_count_changes := st.product_count_changes } := by
  have h' : findCollectionRow st.db (extract_collection_data raw).id = none := h
  unfold syncCollectionStep
  simp only [h']
  rfl

lemma cstep_newIds_mem {now : String} {st : CSyncState} {raw : RawCollection}
    {i : Nat} :
    i ∈ (syncCollectionStep now st raw).newIds ↔ i ∈ st.newIds ∨ i = raw.id := by
  cases h : findCollectionRow st.db raw.id with
  | none => rw [syncCollectionStep_notfound h]; exact mem_addIdOnce
  | some r => rw [syncCollectionStep_found h]; exact mem_addIdOnce

lemma cstep_db_mem {now : String} {st : CSyncState} {raw : RawCollection}
    {i : Nat} :
    i ∈ collectionIds (syncCollectionStep now st raw).db ↔
      i ∈ collectionIds st.db ∨ i = raw.id := by
  cases h : findCollectionRow st.db raw.id with
  | none =>
      rw [syncCollectionStep_notfound h]
      show i ∈ collectionIds
        (st.db ++ [insertedCollectionRow (extract_collection_data raw) now]) ↔ _
      rw [collectionIds_append_one]
      simp [insertedCollectionRow_id, extract_collection_data_id]
  | some r =>
      rw [syncCollectionStep_found h]
      have hg : ∀ x : CollectionRow, ((fun x =>
          if x.id == raw.id then
            updatedCollectionRow (extract_collection_data raw) r now
          else x) x).id = x.id := by
        intro x
        by_cases hx : x.id = raw.id <;>
          simp [hx, updatedCollectionRow_id, findCollectionRow_id h]
      show i ∈ collectionIds (st.db.map _) ↔ _
      have : collectionIds (st.db.map (fun x =>
          if x.id == raw.id then
            updatedCollectionRow (extract_collection_data raw) r now
          else x)) = collectionIds st.db := by
        unfold collectionIds
        rw [List.map_map]
        exact List.map_congr_left (fun x _ => hg x)
      rw [this]
      have hmem := findCollectionRow_mem h
      constructor
      · exact Or.inl
      · rintro (hh | rfl)
        · exact hh
        · exact hmem

lemma cstep_added_mem {now : String} {st : CSyncState} {raw : RawCollection}
    {i : Nat} :
    i ∈ (syncCollectionStep now st raw).added.map AddedCollection.id ↔
      i ∈ st.added.map AddedCollection.id ∨
        (i = raw.id ∧ i ∉ collectionIds st.db) := by
  cases h : findCollectionRow st.db raw.id with
  | none =>
      rw [syncCollectionStep_notfound h]
      have hni : raw.id ∉ collectionIds st.db := findCollectionRow_eq_none_iff.mp h
      simp only [List.map_append, List.mem_append]
      constructor
      · rintro (hh | hh)
        · exact Or.inl hh
        · right
          simp only [List.map_cons, List.map_nil, List.mem_singleton] at hh
          exact ⟨hh, hh ▸ hni⟩
      · rintro (hh | ⟨rfl, _⟩)
        · exact Or.inl hh
        · right; simp
  | some r =>
      rw [syncCollectionStep_found h]
      have hmem := findCollectionRow_mem h
      constructor
      · exact Or.inl
      · rintro (hh | ⟨rfl, hni⟩)
        · exact hh
        · exact absurd hmem hni

lemma cstep_findRow_ne {now : String} {st : CSyncState} {raw : RawCollection}
    {cid : Nat} (hne : raw.id ≠ cid) :
    findCollectionRow (syncCollectionStep now st raw).db cid =
      findCollectionRow st.db cid := by
  cases h : findCollectionRow st.db raw.id with
  | none =>
      rw [syncCollectionStep_notfound h]
      exact findCollectionRow_append_one_ne
        (by rw [insertedCollectionRow_id, extract_collection_data_id]; exact hne)
  | some r =>
      rw [syncCollectionStep_found h]
      have hg : ∀ x : CollectionRow, ((fun x =>
          if x.id == raw.id then
            updatedCollectionRow (extract_collection_data raw) r now
          else x) x).id = x.id := by
        intro x
        by_cases hx : x.id = raw.id <;>
          simp [hx, updatedCollectionRow_id, findCollectionRow_id h]
      show findCollectionRow (st.db.map _) cid = _
      rw [findCollectionRow_map_pres hg]
      cases hc : findCollectionRow st.db cid with
      | none => rfl
      | some x =>
          have hx : x.id = cid := findCollectionRow_id hc
          have : (x.id == raw.id) = false := by
            simp [hx]
            exact fun hh => hne hh.symm
          simp only [Option.map_some', this]
          simp

lemma cstep_pcc_filter_ne {now : String} {st : CSyncState} {raw : RawCollection}
    {cid : Nat} (hne : raw.id ≠ cid) :
    (syncCollectionStep now st raw).product_count_changes.filter
        (fun e => e.id == cid) =
      st.product_count_changes.filter (fun e => e.id == cid) := by
  cases h : findCollectionRow st.db raw.id with
  | none => rw [syncCollectionStep_notfound h]
  | some r =>
      rw [syncCollectionStep_found h]
      by_cases hc : r.products_count == (extract_collection_data raw).products_count
      · simp [hc]
      · have hb : (r.products_count ==
            (extract_collection_data raw).products_count) = false := by
          simpa using hc
        simp only [hb, Bool.false_eq_true, if_false, List.filter_append]
        have : ((raw.id == cid) : Bool) = false := by simp [hne]
        simp [List.filter, this]

lemma cstep_pcc_self {now : String} {st : CSyncState} {raw : RawCollection}
    {r : CollectionRow} (h : findCollectionRow st.db raw.id = some r) :
    (syncCollectionStep now st raw).product_count_changes =
      st.product_count_changes ++
        (if r.products_count = (extract_collection_data raw).products_count then []
         else
           [{ id := raw.id, title := (extract_collection_data raw).title,
              old_count := r.products_count,
              new_count := (extract_collection_data raw).products_count,
              change := (extract_collection_data raw).products_count -
                r.products_count }]) := by
  rw [syncCollectionStep_found h]
  by_cases hc : r.products_count = (extract_collection_data raw).products_count
  · simp [hc]
  · have hb : (r.products_count ==
        (extract_collection_data raw).products_count) = false := by
      simpa using hc
    simp [hb, hc]

/-- Membership invariants of the main loop of sync_collections. -/
lemma cfoldl_step_mem {now : String} :
    ∀ (raws : List RawCollection) (st : CSyncState) (i : Nat),
      (i ∈ (raws.foldl (syncCollectionStep now) st).newIds ↔
        i ∈ st.newIds ∨ i ∈ raws.map RawCollection.id)
      ∧ (i ∈ collectionIds (raws.foldl (syncCollectionStep now) st).db ↔
        i ∈ collectionIds st.db ∨ i ∈ raws.map RawCollection.id)
      ∧ (i ∈ (raws.foldl (syncCollectionStep now) st).added.map AddedCollection.id ↔
        i ∈ st.added.map AddedCollection.id ∨
          (i ∈ raws.map RawCollection.id ∧ i ∉ collectionIds st.db)) := by
  intro raws
  induction raws with
  | nil => intro st i; simp
  | cons a l ih =>
    intro st i
    simp only [List.foldl_cons, List.map_cons, List.mem_cons]
    obtain ⟨ih1, ih2, ih3⟩ := ih (syncCollectionStep now st a) i
    refine ⟨?_, ?_, ?_⟩
    · rw [ih1, cstep_newIds_mem]
      tauto
    · rw [ih2, cstep_db_mem]
      tauto
    · rw [ih3, cstep_added_mem, cstep_db_mem]
      clear ih ih1 ih2 ih3
      generalize (i ∈ st.added.map AddedCollection.id) = A
      generalize (i ∈ collectionIds st.db) = D
      generalize (i ∈ l.map RawCollection.id) = L
      generalize (i = a.id) = E
      tauto

/-- A collection id that never occurs in the processed slice keeps its
stored row and its filtered count-change entries unchanged. -/
lemma cfoldl_step_skip {now : String} :
    ∀ (raws : List RawCollection) (st : CSyncState) (cid : Nat),
      (∀ x ∈ raws, x.id ≠ cid) →
      findCollectionRow (raws.foldl (syncCollectionStep now) st).db cid =
        findCollectionRow st.db cid
      ∧ ((raws.foldl (syncCollectionStep now) st).product_count_changes.filter
            (fun e => e.id == cid) =
          st.product_count_changes.filter (fun e => e.id == cid)) := by
  intro raws
  induction raws with
  | nil => intro st cid _; exact ⟨rfl, rfl⟩
  | cons a l ih =>
    intro st cid hne
    have ha : a.id ≠ cid := hne a (List.mem_cons_self a l)
    have hl : ∀ x ∈ l, x.id ≠ cid := fun x hx => hne x (List.mem_cons_of_mem a hx)
    obtain ⟨ih1, ih2⟩ := ih (syncCollectionStep now st a) cid hl
    simp only [List.foldl_cons]
    exact ⟨ih1.trans (cstep_findRow_ne ha), ih2.trans (cstep_pcc_filter_ne ha)⟩

lemma removeCollectionStep_removed_ids {now : String} {st : CRemovalState}
    {cid : Nat} :
    (removeCollectionStep now st cid).removed.map RemovedCollection.id =
      st.removed.map RemovedCollection.id ++ [cid] := by
  unfold removeCollectionStep
  cases h : findCollectionRow st.db cid <;> simp [h]

lemma cfoldl_remove_removed_ids {now : String} :
    ∀ (ids : List Nat) (st : CRemovalState),
      ((ids.foldl (removeCollectionStep now) st).removed.map RemovedCollection.id) =
        st.removed.map RemovedCollection.id ++ ids := by
  intro ids
  induction ids with
  | nil => intro st; simp
  | cons a l ih =>
    intro st
    simp only [List.foldl_cons]
    rw [ih, removeCollectionStep_removed_ids]
    simp

/-- Behaviour of the collection sync at a collection id that is already
stored and occurs exactly once in the fetched list: the emitted count
changes for that id consist of exactly one entry carrying the stored
count, the fetched count, and their signed difference when the two
differ, and of nothing when they agree. -/
lemma sync_collections_common_id
    {db0 : List CollectionRow} {now : String}
    {u v : List RawCollection} {c : RawCollection} {r : CollectionRow}
    (hu : ∀ x ∈ u, x.id ≠ c.id) (hv : ∀ x ∈ v, x.id ≠ c.id)
    (hr : findCollectionRow db0 c.id = some r) :
    (sync_collections db0 now (u ++ c :: v)).2.product_count_changes.filter
        (fun e => e.id == c.id) =
      (if r.products_count = (extract_collection_data c).products_count then []
       else
         [{ id := c.id, title := (extract_collection_data c).title,
            old_count := r.products_count,
            new_count := (extract_collection_data c).products_count,
            change := (extract_collection_data c).products_count -
              r.products_count }]) := by
  unfold sync_collections
  simp only [List.foldl_append, List.foldl_cons]
  set st0 : CSyncState := ⟨db0, [], [], []⟩ with hst0
  set stu := u.foldl (syncCollectionStep now) st0 with hstu
  obtain ⟨hskipu_db, hskipu_pcc⟩ := cfoldl_step_skip u st0 c.id hu
  have hfind_stu : findCollectionRow stu.db c.id = some r := by
    rw [hstu, hskipu_db]; exact hr
  set st1 := syncCollectionStep now stu c with hst1
  obtain ⟨hskipv_db, hskipv_pcc⟩ :=
    cfoldl_step_skip v st1 c.id hv
  show (v.foldl (syncCollectionStep now) st1).product_count_changes.filter
      (fun e => e.id == c.id) = _
  rw [hskipv_pcc, hst1, cstep_pcc_self hfind_stu, List.filter_append]
  have hpccu : stu.product_count_changes.filter (fun e => e.id == c.id) = [] := by
    rw [hstu, hskipu_pcc]
    rfl
  rw [hpccu]
  by_cases hc : r.products_count = (extract_collection_data c).products_count
  · simp [hc]
  · have : ((c.id == c.id) : Bool) = true := by simp
    simp [hc, List.filter, this]

/-- When every fetched product id is absent from the table and the
fetched ids are duplicate-free, every iteration takes the insert branch:
added collects exactly the fetched entities and updated stays as it
was. -/
lemma foldl_step_all_new {now : String} :
    ∀ (raws : List RawProduct) (st : PSyncState),
      (∀ x ∈ raws, x.id ∉ productIds st.db) →
      (raws.map RawProduct.id).Nodup →
      (raws.foldl (syncProductStep now) st).added
          = st.added ++ raws.map (fun raw =>
              { id := raw.id, title := (extract_product_data raw).title,
                vendor := (extract_product_data raw).vendor,
                price := (extract_product_data raw).price })
      ∧ (raws.foldl (syncProductStep now) st).updated = st.updated := by
  intro raws
  induction raws with
  | nil => intro st _ _; simp
  | cons a l ih =>
    intro st hnew hnd
    rw [List.map_cons, List.nodup_cons] at hnd
    have ha : a.id ∉ productIds st.db := hnew a (List.mem_cons_self a l)
    have hfind : findRow st.db a.id = none := findRow_eq_none_iff.mpr ha
    have hstep := @syncProductStep_notfound now st a hfind
    have hl : ∀ x ∈ l, x.id ∉ productIds (syncProductStep now st a).db := by
      intro x hx
      rw [hstep]
      show x.id ∉ productIds (st.db ++ [insertedRow (extract_product_data a) now])
      rw [productIds_append_one]
      intro hmem
      rcases List.mem_append.mp hmem with hm | hm
      · exact hnew x (List.mem_cons_of_mem a hx) hm
      · have hxa : x.id = a.id := by
          simpa [insertedRow_id, extract_product_data_id] using hm
        exact hnd.1 (hxa ▸ List.mem_map_of_mem RawProduct.id hx)
    obtain ⟨ih1, ih2⟩ := ih (syncProductStep now st a) hl hnd.2
    simp only [List.foldl_cons]
    constructor
    · rw [ih1, hstep]
      simp
    · rw [ih2, hstep]

/-- The collection analogue of the all-new lemma: on a fresh table every
iteration inserts, and the count-change list is untouched. -/
lemma cfoldl_step_all_new {now : String} :
    ∀ (raws : List RawCollection) (st : CSyncState),
      (∀ x ∈ raws, x.id ∉ collectionIds st.db) →
      (raws.map RawCollection.id).Nodup →
      (raws.foldl (syncCollectionStep now) st).added
          = st.added ++ raws.map (fun raw =>
              { id := raw.id, title := (extract_collection_data raw).title })
      ∧ (raws.foldl (syncCollectionStep now) st).product_count_changes =
          st.product_count_changes := by
  intro raws
  induction raws with
  | nil => intro st _ _; simp
  | cons a l ih =>
    intro st hnew hnd
    rw [List.map_cons, List.nodup_cons] at hnd
    have ha : a.id ∉ collectionIds st.db := hnew a (List.mem_cons_self a l)
    have hfind : findCollectionRow st.db a.id = none :=
      findCollectionRow_eq_none_iff.mpr ha
    have hstep := @syncCollectionStep_notfound now st a hfind
    have hl : ∀ x ∈ l, x.id ∉ collectionIds (syncCollectionStep now st a).db := by
      intro x hx
      rw [hstep]
      show x.id ∉ collectionIds
        (st.db ++ [insertedCollectionRow (extract_collection_data a) now])
      rw [collectionIds_append_one]
      intro hmem
      rcases List.mem_append.mp hmem with hm | hm
      · exact hnew x (List.mem_cons_of_mem a hx) hm
      · have hxa : x.id = a.id := by
          simpa [insertedCollectionRow_id, extract_collection_data_id] using hm
        exact hnd.1 (hxa ▸ List.mem_map_of_mem RawCollection.id hx)
    obtain ⟨ih1, ih2⟩ := ih (syncCollectionStep now st a) hl hnd.2
    simp only [List.foldl_cons]
    constructor
    · rw [ih1, hstep]
      simp
    · rw [ih2, hstep]

/-- The field-comparison loop finds a difference exactly when one of
the seven tracked fields differs between the stored row and the fresh
data, under the stringified comparison the source performs. -/
lemma productFieldChanges_ne_nil_iff {r : ProductRow} {d : ProductData} :
    productFieldChanges r d ≠ [] ↔
      (r.title ≠ d.title ∨ r.price ≠ d.price ∨
       toString r.available ≠ toString d.available ∨ r.vendor ≠ d.vendor ∨
       r.product_type ≠ d.product_type ∨
       r.compare_at_price ≠ d.compare_at_price ∨ r.sku ≠ d.sku) := by
  unfold productFieldChanges productFieldPairs
  simp [List.filter_eq_nil_iff, bne_iff_ne]
  tauto

/-- Contrapositive form: all seven tracked fields agree exactly when the
field-comparison loop finds nothing. -/
lemma productFieldChanges_eq_nil_iff {r : ProductRow} {d : ProductData} :
    productFieldChanges r d = [] ↔
      (r.title = d.title ∧ r.price = d.price ∧
       toString r.available = toString d.available ∧ r.vendor = d.vendor ∧
       r.product_type = d.product_type ∧
       r.compare_at_price = d.compare_at_price ∧ r.sku = d.sku) := by
  have h := not_iff_not.mpr (productFieldChanges_ne_nil_iff (r := r) (d := d))
  push_neg at h
  simpa using h

lemma contains_eq_true_iff {b : List Nat} {j : Nat} :
    b.contains j = true ↔ j ∈ b := List.elem_iff

lemma not_contains_iff {b : List Nat} {j : Nat} :
    ((!(b.contains j)) = true) ↔ j ∉ b := by
  constructor
  · intro h hm
    have hc := contains_eq_true_iff.mpr hm
    rw [hc] at h
    simp at h
  · intro h
    have hc : b.contains j = false := by
      cases hx : b.contains j
      · rfl
      · exact absurd (contains_eq_true_iff.mp hx) h
    rw [hc]
    rfl

lemma sync_products_added_proj (db0 : List ProductRow)
    (hist0 : List ProductHistoryEntry) (now : String) (raws : List RawProduct) :
    (sync_products db0 hist0 now raws).2.added =
      (raws.foldl (syncProductStep now) ⟨db0, hist0, [], [], []⟩).added := rfl

lemma sync_products_updated_proj (db0 : List ProductRow)
    (hist0 : List ProductHistoryEntry) (now : String) (raws : List RawProduct) :
    (sync_products db0 hist0 now raws).2.updated =
      (raws.foldl (syncProductStep now) ⟨db0, hist0, [], [], []⟩).updated := rfl

lemma sync_products_removed_ids (db0 : List ProductRow)
    (hist0 : List ProductHistoryEntry) (now : String) (raws : List RawProduct) :
    (sync_products db0 hist0 now raws).2.removed.map RemovedProduct.id =
      (activeIds db0).filter (fun j =>
        !((raws.foldl (syncProductStep now)
            ⟨db0, hist0, [], [], []⟩).newIds.contains j)) := by
  have hstep : (sync_products db0 hist0 now raws).2.removed =
      (((activeIds db0).filter (fun j =>
          !((raws.foldl (syncProductStep now)
              ⟨db0, hist0, [], [], []⟩).newIds.contains j))).foldl
        (removeProductStep now)
        ⟨(raws.foldl (syncProductStep now) ⟨db0, hist0, [], [], []⟩).db,
         (raws.foldl (syncProductStep now) ⟨db0, hist0, [], [], []⟩).history,
         []⟩).removed := rfl
  rw [hstep, foldl_remove_removed_ids]
  rfl

lemma sync_collections_added_proj (db0 : List CollectionRow) (now : String)
    (raws : List RawCollection) :
    (sync_collections db0 now raws).2.added =
      (raws.foldl (syncCollectionStep now) ⟨db0, [], [], []⟩).added := rfl

lemma sync_collections_pcc_proj (db0 : List CollectionRow) (now : String)
    (raws : List RawCollection) :
    (sync_collections db0 now raws).2.product_count_changes =
      (raws.foldl (syncCollectionStep now)
        ⟨db0, [], [], []⟩).product_count_changes := rfl

lemma sync_collections_removed_ids (db0 : List CollectionRow) (now : String)
    (raws : List RawCollection) :
    (sync_collections db0 now raws).2.removed.map RemovedCollection.id =
      (activeCollectionIds db0).filter (fun j =>
        !((raws.foldl (syncCollectionStep now)
            ⟨db0, [], [], []⟩).newIds.contains j)) := by
  have hstep : (sync_collections db0 now raws).2.removed =
      (((activeCollectionIds db0).filter (fun j =>
          !((raws.foldl (syncCollectionStep now)
              ⟨db0, [], [], []⟩).newIds.contains j))).foldl
        (removeCollectionStep now)
        ⟨(raws.foldl (syncCollectionStep now) ⟨db0, [], [], []⟩).db,
         []⟩).removed := rfl
  rw [hstep, cfoldl_remove_removed_ids]
  rfl

/-! ## The claims -/

/-- Claim C1, counterexample.  The claim asserts that a first run
(empty database) yields empty added, removed and updated lists and a
first_run flag.  On an empty products table the code classifies every
fetched product as added, and no first_run flag exists anywhere in the
change record. -/
theorem claim_C1_counterexample :
    (sync_products [] [] "t0" [exRawProduct 1 "Apple Juice" "u1"]).2.added ≠ [] := by
  decide

/-- Claim C1, amended.  Running the sync against an empty database (the
first run) classifies every fetched entity as added: with
duplicate-free fetched ids the added bucket lists exactly the fetched
ids in order, while removed and updated (products), and removed and
product_count_changes (collections), are empty.  No first_run flag
exists. -/
theorem claim_C1 (now cnow : String) (hist0 : List ProductHistoryEntry)
    (raws : List RawProduct) (craws : List RawCollection)
    (hnd : (raws.map RawProduct.id).Nodup)
    (hcnd : (craws.map RawCollection.id).Nodup) :
    ((sync_products [] hist0 now raws).2.added.map AddedProduct.id
        = raws.map RawProduct.id
      ∧ (sync_products [] hist0 now raws).2.removed = []
      ∧ (sync_products [] hist0 now raws).2.updated = [])
    ∧ ((sync_collections [] cnow craws).2.added.map AddedCollection.id
        = craws.map RawCollection.id
      ∧ (sync_collections [] cnow craws).2.removed = []
      ∧ (sync_collections [] cnow craws).2.product_count_changes = []) := by
  obtain ⟨hadd, hupd⟩ := foldl_step_all_new raws
    ⟨[], hist0, [], [], []⟩ (by simp [productIds]) hnd
  obtain ⟨hcadd, hcpcc⟩ := cfoldl_step_all_new craws
    ⟨[], [], [], []⟩ (by simp [collectionIds]) hcnd
  refine ⟨⟨?_, ?_, ?_⟩, ?_, ?_, ?_⟩
  · rw [sync_products_added_proj, hadd]
    simp [List.map_map]
  · have h := sync_products_removed_ids [] hist0 now raws
    have hact : activeIds ([] : List ProductRow) = [] := rfl
    rw [hact] at h
    simp only [List.filter_nil] at h
    exact List.map_eq_nil_iff.mp h
  · rw [sync_products_updated_proj, hupd]
  · rw [sync_collections_added_proj, hcadd]
    simp [List.map_map]
  · have h := sync_collections_removed_ids [] cnow craws
    have hact : activeCollectionIds ([] : List CollectionRow) = [] := rfl
    rw [hact] at h
    simp only [List.filter_nil] at h
    exact List.map_eq_nil_iff.mp h
  · rw [sync_collections_pcc_proj, hcpcc]

/-- Claim C1, witness: the amended statement applied to a concrete
one-product, one-collection first run. -/
theorem claim_C1_witness :
    (sync_products [] [] "t0" [exRawProduct 1 "Apple Juice" "u1"]).2.added.map
        AddedProduct.id = [1]
    ∧ (sync_collections [] "t0" [exRawCollection 2 "Drinks" 3]).2.removed = [] := by
  have h := claim_C1 "t0" "t0" [] [exRawProduct 1 "Apple Juice" "u1"]
    [exRawCollection 2 "Drinks" 3] (by decide) (by decide)
  exact ⟨h.1.1, h.2.2.1⟩

/-- Claim C2, counterexample.  The claim asserts that equal
shopify_updated_at timestamps keep a common id out of the updated list
even when other fields differ.  The code never looks at
shopify_updated_at: a title change with identical timestamps lands in
updated. -/
theorem claim_C2_counterexample :
    ((sync_products [exRow 1 "Old Title" "u1" "s0" 1] [] "t1"
        [exRawProduct 1 "New Title" "u1"]).2.updated.map UpdatedProduct.id = [1])
    ∧ (exRow 1 "Old Title" "u1" "s0" 1).shopify_updated_at =
        (extract_product_data (exRawProduct 1 "New Title" "u1")).shopify_updated_at := by
  constructor
  · decide
  · decide

/-- Claim C2, amended.  For a product id stored as row r (active) and
fetched exactly once, membership in the updated list is equivalent to
one of the seven compared fields (title, price, available, vendor,
product_type, compare_at_price, sku) differing between the stored row
and the fresh data under the stringified comparison; the
shopify_updated_at timestamps play no role. -/
theorem claim_C2 (db0 : List ProductRow) (hist0 : List ProductHistoryEntry)
    (now : String) (u v : List RawProduct) (raw : RawProduct) (r : ProductRow)
    (hu : ∀ x ∈ u, x.id ≠ raw.id) (hv : ∀ x ∈ v, x.id ≠ raw.id)
    (hr : findRow db0 raw.id = some r) (hact : r.is_active = 1) :
    raw.id ∈ (sync_products db0 hist0 now
        (u ++ raw :: v)).2.updated.map UpdatedProduct.id ↔
      (r.title ≠ (extract_product_data raw).title ∨
       r.price ≠ (extract_product_data raw).price ∨
       toString r.available ≠ toString (extract_product_data raw).available ∨
       r.vendor ≠ (extract_product_data raw).vendor ∨
       r.product_type ≠ (extract_product_data raw).product_type ∨
       r.compare_at_price ≠ (extract_product_data raw).compare_at_price ∨
       r.sku ≠ (extract_product_data raw).sku) := by
  have h := (@sync_products_common_id db0 hist0 now u v raw r hu hv hr).2.2.2
  rw [h]
  exact productFieldChanges_ne_nil_iff

/-- Claim C2, witness: with equal timestamps but a changed title, the
common id is in the updated list. -/
theorem claim_C2_witness :
    (exRawProduct 1 "New Title" "u1").id ∈
      (sync_products [exRow 1 "Old Title" "u1" "s0" 1] [] "t1"
        ([] ++ exRawProduct 1 "New Title" "u1" :: [])).2.updated.map
        UpdatedProduct.id := by
  have h := claim_C2 [exRow 1 "Old Title" "u1" "s0" 1] [] "t1" [] []
    (exRawProduct 1 "New Title" "u1") (exRow 1 "Old Title" "u1" "s0" 1)
    (by simp) (by simp) (by decide) (by decide)
  exact h.mpr (by decide)

/-- Claim C3, counterexample.  The claim asserts that appending a run
record with no-change inputs leaves the ledger unmodified; log_scrape
inserts a row unconditionally, so even an all-empty change record grows
the empty ledger. -/
theorem claim_C3_counterexample :
    log_scrape [] "t" 0 { added := [], removed := [], updated := [] } 0
      { added := [], removed := [], product_count_changes := [] } "s" ≠ [] := by
  decide

/-- Claim C3, amended.  log_scrape unconditionally appends exactly one
entry per call, whatever the change record contents, and never rewrites
the earlier entries. -/
theorem claim_C3 (log : List ScrapeLogEntry) (now : String) (pt : Nat)
    (pc : ProductChanges) (ct : Nat) (cc : CollectionChanges) (s : String) :
    (log_scrape log now pt pc ct cc s).length = log.length + 1
    ∧ (log_scrape log now pt pc ct cc s).take log.length = log := by
  constructor
  · simp [log_scrape]
  · show (log ++ [_]).take log.length = log
    exact List.take_left log _

/-- Claim C4, counterexample.  The claim asserts added ids are exactly
the new ids minus the previous-snapshot (active) ids.  A product stored
inactive that reappears is reactivated instead of re-added: its id is
in new minus old but not in added. -/
theorem claim_C4_counterexample :
    ((sync_products [exRow 1 "Apple" "u1" "s0" 0] [] "t1"
        [exRawProduct 1 "Apple" "u1"]).2.added = [])
    ∧ activeIds [exRow 1 "Apple" "u1" "s0" 0] = []
    ∧ [exRawProduct 1 "Apple" "u1"].map RawProduct.id = [1] := by
  decide

/-- Claim C4, amended.  For both entity kinds: the added ids are
exactly the fetched ids minus the ids of ALL stored rows (active or
inactive), the removed ids are exactly the active stored ids minus the
fetched ids, and added and removed are disjoint. -/
theorem claim_C4 (db0 : List ProductRow) (hist0 : List ProductHistoryEntry)
    (now : String) (raws : List RawProduct)
    (cdb0 : List CollectionRow) (cnow : String) (craws : List RawCollection) :
    (∀ i, i ∈ (sync_products db0 hist0 now raws).2.added.map AddedProduct.id ↔
        (i ∈ raws.map RawProduct.id ∧ i ∉ productIds db0))
    ∧ (∀ i, i ∈ (sync_products db0 hist0 now raws).2.removed.map RemovedProduct.id ↔
        (i ∈ activeIds db0 ∧ i ∉ raws.map RawProduct.id))
    ∧ (∀ i, ¬(i ∈ (sync_products db0 hist0 now raws).2.added.map AddedProduct.id
        ∧ i ∈ (sync_products db0 hist0 now raws).2.removed.map RemovedProduct.id))
    ∧ (∀ i, i ∈ (sync_collections cdb0 cnow craws).2.added.map AddedCollection.id ↔
        (i ∈ craws.map RawCollection.id ∧ i ∉ collectionIds cdb0))
    ∧ (∀ i, i ∈ (sync_collections cdb0 cnow craws).2.removed.map RemovedCollection.id ↔
        (i ∈ activeCollectionIds cdb0 ∧ i ∉ craws.map RawCollection.id))
    ∧ (∀ i, ¬(i ∈ (sync_collections cdb0 cnow craws).2.added.map AddedCollection.id
        ∧ i ∈ (sync_collections cdb0 cnow craws).2.removed.map RemovedCollection.id)) := by
  have hPadd : ∀ i,
      i ∈ (sync_products db0 hist0 now raws).2.added.map AddedProduct.id ↔
        (i ∈ raws.map RawProduct.id ∧ i ∉ productIds db0) := by
    intro i
    rw [sync_products_added_proj]
    have h := (@foldl_step_mem now raws ⟨db0, hist0, [], [], []⟩ i).2.2
    rw [h]
    simp
  have hPrem : ∀ i,
      i ∈ (sync_products db0 hist0 now raws).2.removed.map RemovedProduct.id ↔
        (i ∈ activeIds db0 ∧ i ∉ raws.map RawProduct.id) := by
    intro i
    have hids := sync_products_removed_ids db0 hist0 now raws
    have hmm : i ∈ (sync_products db0 hist0 now raws).2.removed.map
        RemovedProduct.id ↔ i ∈ (activeIds db0).filter (fun j =>
          !((raws.foldl (syncProductStep now)
              ⟨db0, hist0, [], [], []⟩).newIds.contains j)) := by
      rw [hids]
    rw [hmm, List.mem_filter]
    apply and_congr_right
    intro _
    rw [not_contains_iff]
    have hn := (@foldl_step_mem now raws ⟨db0, hist0, [], [], []⟩ i).1
    rw [hn]
    simp
  have hCadd : ∀ i,
      i ∈ (sync_collections cdb0 cnow craws).2.added.map AddedCollection.id ↔
        (i ∈ craws.map RawCollection.id ∧ i ∉ collectionIds cdb0) := by
    intro i
    rw [sync_collections_added_proj]
    have h := (@cfoldl_step_mem cnow craws ⟨cdb0, [], [], []⟩ i).2.2
    rw [h]
    simp
  have hCrem : ∀ i,
      i ∈ (sync_collections cdb0 cnow craws).2.removed.map RemovedCollection.id ↔
        (i ∈ activeCollectionIds cdb0 ∧ i ∉ craws.map RawCollection.id) := by
    intro i
    have hids := sync_collections_removed_ids cdb0 cnow craws
    have hmm : i ∈ (sync_collections cdb0 cnow craws).2.removed.map
        RemovedCollection.id ↔ i ∈ (activeCollectionIds cdb0).filter (fun j =>
          !((craws.foldl (syncCollectionStep cnow)
              ⟨cdb0, [], [], []⟩).newIds.contains j)) := by
      rw [hids]
    rw [hmm, List.mem_filter]
    apply and_congr_right
    intro _
    rw [not_contains_iff]
    have hn := (@cfoldl_step_mem cnow craws ⟨cdb0, [], [], []⟩ i).1
    rw [hn]
    simp
  refine ⟨hPadd, hPrem, ?_, hCadd, hCrem, ?_⟩
  · intro i ⟨h1, h2⟩
    exact ((hPrem i).mp h2).2 ((hPadd i).mp h1).1
  · intro i ⟨h1, h2⟩
    exact ((hCrem i).mp h2).2 ((hCadd i).mp h1).1

/-- Claim C4, witness: the amended partition applied to a concrete
one-product first run puts the fetched id in added. -/
theorem claim_C4_witness :
    1 ∈ (sync_products [] [] "t0"
        [exRawProduct 1 "Apple" "u1"]).2.added.map AddedProduct.id := by
  have h := (claim_C4 [] [] "t0" [exRawProduct 1 "Apple" "u1"] [] "t0" []).1 1
  exact h.mpr (by decide)

/-- Claim C5, counterexample.  The claim asserts that a timestamp-only
change produces the single change entry metadata updated.  The code
has no such fallback: a product whose seven compared fields are all
unchanged produces no updated entry at all, whatever the timestamps. -/
theorem claim_C5_counterexample :
    ((sync_products [exRow 1 "Apple" "u1" "s0" 1] [] "t1"
        [exRawProduct 1 "Apple" "u2"]).2.updated = [])
    ∧ (exRow 1 "Apple" "u1" "s0" 1).shopify_updated_at ≠
        (extract_product_data (exRawProduct 1 "Apple" "u2")).shopify_updated_at := by
  decide

/-- Claim C5, amended.  When the stored row and the fresh data agree on
all seven compared fields, the id does not appear in the updated list
at all, even though shopify_updated_at differs; no metadata-updated
fallback entry exists. -/
theorem claim_C5 (db0 : List ProductRow) (hist0 : List ProductHistoryEntry)
    (now : String) (u v : List RawProduct) (raw : RawProduct) (r : ProductRow)
    (hu : ∀ x ∈ u, x.id ≠ raw.id) (hv : ∀ x ∈ v, x.id ≠ raw.id)
    (hr : findRow db0 raw.id = some r)
    (h1 : r.title = (extract_product_data raw).title)
    (h2 : r.price = (extract_product_data raw).price)
    (h3 : toString r.available = toString (extract_product_data raw).available)
    (h4 : r.vendor = (extract_product_data raw).vendor)
    (h5 : r.product_type = (extract_product_data raw).product_type)
    (h6 : r.compare_at_price = (extract_product_data raw).compare_at_price)
    (h7 : r.sku = (extract_product_data raw).sku)
    (hts : r.shopify_updated_at ≠ (extract_product_data raw).shopify_updated_at) :
    raw.id ∉ (sync_products db0 hist0 now
        (u ++ raw :: v)).2.updated.map UpdatedProduct.id := by
  have h := (@sync_products_common_id db0 hist0 now u v raw r hu hv hr).2.2.2
  intro hmem
  exact (h.mp hmem) (productFieldChanges_eq_nil_iff.mpr ⟨h1, h2, h3, h4, h5, h6, h7⟩)

/-- Claim C5, witness: a concrete unchanged product with a fresh
timestamp stays out of the updated list. -/
theorem claim_C5_witness :
    (exRawProduct 1 "Apple" "u2").id ∉
      (sync_products [exRow 1 "Apple" "u1" "s0" 1] [] "t1"
        ([] ++ exRawProduct 1 "Apple" "u2" :: [])).2.updated.map
        UpdatedProduct.id := by
  have h := claim_C5 [exRow 1 "Apple" "u1" "s0" 1] [] "t1" [] []
    (exRawProduct 1 "Apple" "u2") (exRow 1 "Apple" "u1" "s0" 1)
    (by simp) (by simp) (by decide) (by decide) (by decide) (by decide)
    (by decide) (by decide) (by decide) (by decide) (by decide)
  exact h

/-- Claim C6.  For a collection id present in both snapshots and
fetched once, the count check is direct (no timestamp hypothesis
anywhere): the emitted count-change entries for that id are exactly one
entry carrying the stored count, the fetched count, and the signed
difference fetched minus stored when the counts differ, and nothing
when they agree. -/
theorem claim_C6 (db0 : List CollectionRow) (now : String)
    (u v : List RawCollection) (c : RawCollection) (r : CollectionRow)
    (hu : ∀ x ∈ u, x.id ≠ c.id) (hv : ∀ x ∈ v, x.id ≠ c.id)
    (hr : findCollectionRow db0 c.id = some r) :
    (sync_collections db0 now (u ++ c :: v)).2.product_count_changes.filter
        (fun e => e.id == c.id) =
      (if r.products_count = (extract_collection_data c).products_count then []
       else
         [{ id := c.id, title := (extract_collection_data c).title,
            old_count := r.products_count,
            new_count := (extract_collection_data c).products_count,
            change := (extract_collection_data c).products_count -
              r.products_count }]) :=
  @sync_collections_common_id db0 now u v c r hu hv hr

/-- Claim C6, witness: the spec scenario, stored count 10 and fetched
count 7, emits exactly one entry with old 10, new 7 and change minus 3. -/
theorem claim_C6_witness :
    (sync_collections [exCollectionRow 5 "Drinks" 10 1] "t1"
        [exRawCollection 5 "Drinks" 7]).2.product_count_changes.filter
        (fun e => e.id == 5) =
      [{ id := 5, title := "Drinks", old_count := 10, new_count := 7,
         change := -3 }] := by
  have h := claim_C6 [exCollectionRow 5 "Drinks" 10 1] "t1" [] []
    (exRawCollection 5 "Drinks" 7) (exCollectionRow 5 "Drinks" 10 1)
    (by simp) (by simp) (by decide)
  exact h.trans (by decide)

/-- Claim C7, counterexample.  The claim asserts every itemized list,
collection count changes included, is capped at 10 entries with a
more-trailer.  With eleven count changes the collection block itemizes
all eleven and emits no trailer. -/
theorem claim_C7_counterexample :
    ccEleven.product_count_changes.length = 11
    ∧ countChangeLine (exCountChange 10) ∈ collectionSection ccEleven
    ∧ "      ... and 1 more" ∉ collectionSection ccEleven := by
  decide

/-- Claim C7, amended.  The three product blocks are capped at 10
itemized entries plus a more-trailer line when the bucket exceeds 10,
and each update line renders at most the first two field changes; the
collection count-change block is rendered in full with no cap and no
trailer.  The cap is display-only: the change record passed in is not
modified. -/
theorem claim_C7 (pc : ProductChanges) (cc : CollectionChanges) :
    (∀ n m : Nat, ∀ ts : String, summaryLines pc cc n m ts =
      headerLines pc n m ts ++ addedSection pc ++ removedSection pc
        ++ updatedSection pc ++ collectionSection cc ++ ["", sepLine])
    ∧ ((addedSection pc).length =
      if pc.added.isEmpty then 0
      else 2 + min pc.added.length 10 + (if 10 < pc.added.length then 1 else 0))
    ∧ ((removedSection pc).length =
      if pc.removed.isEmpty then 0
      else 2 + min pc.removed.length 10 +
        (if 10 < pc.removed.length then 1 else 0))
    ∧ ((updatedSection pc).length =
      if pc.updated.isEmpty then 0
      else 2 + min pc.updated.length 10 +
        (if 10 < pc.updated.length then 1 else 0))
    ∧ ((collectionSection cc).length =
      if cc.product_count_changes.isEmpty then 0
      else 2 + cc.product_count_changes.length)
    ∧ (∀ p : UpdatedProduct, p ∈ pc.updated →
        ((p.changes.take 2).map fieldChangeStr).length = min p.changes.length 2) := by
  refine ⟨fun _ _ _ => rfl, ?_, ?_, ?_, ?_, ?_⟩
  · by_cases h : pc.added.isEmpty
    · simp [addedSection, h]
    · by_cases h10 : 10 < pc.added.length
      · simp [addedSection, h, h10, List.length_take]
        omega
      · simp [addedSection, h, h10, List.length_take]
        omega
  · by_cases h : pc.removed.isEmpty
    · simp [removedSection, h]
    · by_cases h10 : 10 < pc.removed.length
      · simp [removedSection, h, h10, List.length_take]
        omega
      · simp [removedSection, h, h10, List.length_take]
        omega
  · by_cases h : pc.updated.isEmpty
    · simp [updatedSection, h]
    · by_cases h10 : 10 < pc.updated.length
      · simp [updatedSection, h, h10, List.length_take]
        omega
      · simp [updatedSection, h, h10, List.length_take]
        omega
  · by_cases h : cc.product_count_changes.isEmpty
    · simp [collectionSection, h]
    · simp [collectionSection, h]
      omega
  · intro p _
    simp [List.length_take, Nat.min_comm]

/-- Claim C7, witness: the amended cap arithmetic evaluated on the
concrete eleven-entry collection record gives a thirteen-line block. -/
theorem claim_C7_witness :
    (collectionSection ccEleven).length = 13 := by
  have h := (claim_C7 { added := [], removed := [], updated := [] }
    ccEleven).2.2.2.2.1
  exact h.trans (by decide)

/-- Claim C8.  The summary builder is deterministic: for fixed change
records and counts, two renderings differ at most in the embedded
generation timestamp, which occupies exactly line index 1 of the lines
list; every other line, and the line count, coincide. -/
theorem claim_C8 (pc : ProductChanges) (cc : CollectionChanges)
    (n m : Nat) (t1 t2 : String) :
    generate_summary pc cc n m t1 =
      String.intercalate "\n" (summaryLines pc cc n m t1)
    ∧ (summaryLines pc cc n m t1).length = (summaryLines pc cc n m t2).length
    ∧ (summaryLines pc cc n m t1).take 1 = (summaryLines pc cc n m t2).take 1
    ∧ (summaryLines pc cc n m t1).drop 2 = (summaryLines pc cc n m t2).drop 2 := by
  exact ⟨rfl, rfl, rfl, rfl⟩

/-- Claim C9.  A stored-but-inactive product id that reappears in the
fetch (once) is reactivated in place: the stored row ends the run with
is_active back to 1, the id joins neither added nor removed, and it
joins updated only when one of the seven compared fields differs from
the stored values. -/
theorem claim_C9 (db0 : List ProductRow) (hist0 : List ProductHistoryEntry)
    (now : String) (u v : List RawProduct) (raw : RawProduct) (r : ProductRow)
    (hu : ∀ x ∈ u, x.id ≠ raw.id) (hv : ∀ x ∈ v, x.id ≠ raw.id)
    (hr : findRow db0 raw.id = some r) (hinact : r.is_active = 0) :
    (∃ r', findRow (sync_products db0 hist0 now (u ++ raw :: v)).1.1 raw.id
        = some r' ∧ r'.is_active = 1)
    ∧ raw.id ∉
        (sync_products db0 hist0 now (u ++ raw :: v)).2.added.map AddedProduct.id
    ∧ raw.id ∉
        (sync_products db0 hist0 now (u ++ raw :: v)).2.removed.map RemovedProduct.id
    ∧ (raw.id ∈ (sync_products db0 hist0 now
          (u ++ raw :: v)).2.updated.map UpdatedProduct.id →
        (r.title ≠ (extract_product_data raw).title ∨
         r.price ≠ (extract_product_data raw).price ∨
         toString r.available ≠ toString (extract_product_data raw).available ∨
         r.vendor ≠ (extract_product_data raw).vendor ∨
         r.product_type ≠ (extract_product_data raw).product_type ∨
         r.compare_at_price ≠ (extract_product_data raw).compare_at_price ∨
         r.sku ≠ (extract_product_data raw).sku)) := by
  obtain ⟨hdb, hadd, hrem, hupd⟩ :=
    @sync_products_common_id db0 hist0 now u v raw r hu hv hr
  refine ⟨⟨updatedRow (extract_product_data raw) r now, hdb, rfl⟩, hadd, hrem, ?_⟩
  intro hmem
  exact productFieldChanges_ne_nil_iff.mp (hupd.mp hmem)

/-- Claim C9, witness: a concrete inactive stored product reappearing
under a new title is reactivated and classified as neither added nor
removed. -/
theorem claim_C9_witness :
    (∃ r', findRow (sync_products [exRow 1 "Apple" "u1" "s0" 0] [] "t1"
        ([] ++ exRawProduct 1 "Banana" "u2" :: [])).1.1 1 = some r'
        ∧ r'.is_active = 1)
    ∧ (1 : Nat) ∉ (sync_products [exRow 1 "Apple" "u1" "s0" 0] [] "t1"
        ([] ++ exRawProduct 1 "Banana" "u2" :: [])).2.added.map AddedProduct.id
    ∧ (1 : Nat) ∉ (sync_products [exRow 1 "Apple" "u1" "s0" 0] [] "t1"
        ([] ++ exRawProduct 1 "Banana" "u2" :: [])).2.removed.map
        RemovedProduct.id := by
  have h := claim_C9 [exRow 1 "Apple" "u1" "s0" 0] [] "t1" [] []
    (exRawProduct 1 "Banana" "u2") (exRow 1 "Apple" "u1" "s0" 0)
    (by simp) (by simp) (by decide) (by decide)
  exact ⟨h.1, h.2.1, h.2.2.1⟩

/-- Claim C10.  A fetched product with an empty variants list extracts
price, compare_at_price and sku as no-value, while available is the
concrete integer 0, never absent; an empty images list extracts
image_url as no-value. -/
theorem claim_C10 (p : RawProduct) :
    (p.variants = [] →
      (extract_product_data p).price = none
      ∧ (extract_product_data p).compare_at_price = none
      ∧ (extract_product_data p).sku = none
      ∧ (extract_product_data p).available = 0)
    ∧ (p.images = [] → (extract_product_data p).image_url = none) := by
  constructor
  · intro h
    refine ⟨?_, ?_, ?_, ?_⟩ <;> simp [extract_product_data, h]
  · intro h
    simp [extract_product_data, h]

/-- Claim C10, witness: the variant-free, image-free concrete product. -/
theorem claim_C10_witness :
    (extract_product_data exEmptyProduct).price = none
    ∧ (extract_product_data exEmptyProduct).available = 0
    ∧ (extract_product_data exEmptyProduct).image_url = none := by
  have h := claim_C10 exEmptyProduct
  exact ⟨(h.1 rfl).1, (h.1 rfl).2.2.2, h.2 rfl⟩

end Superette
